import Mathlib

/-!
Shallow embedding of the rts sensor-processing pipeline (main.cpp,
jitter.h, preprocess.h): the single-slot channels `loaded` and
`preprocessed`, the shutdown signal handler, the periodic scheduler of
`load_data_thread`, the round-robin file source, and the jitter
accumulator.  Pure functions of the source become Lean functions;
the channel operations of the three stage threads become explicit
state-passing functions whose blocking waits consume a list of
environment observations (the shared state as seen at each
`pthread_cond_wait` wake).
-/

namespace RTS

/-- A 3D point of `preprocess.h` (`struct point3d`).  The source uses
`float` coordinates; the claims treat frames as opaque payloads, so the
coordinates are embedded as rationals. -/
structure Point3 where
  x : ℚ
  y : ℚ
  z : ℚ
deriving DecidableEq, Repr

/-- A frame of `preprocess.h` (`struct lidar_data`): an ordered sequence
of 3D points. -/
structure LidarData where
  points : List Point3
deriving DecidableEq, Repr

/-- One single-slot channel of `struct state` (`loaded` or
`preprocessed`).  The C++ member `data` always holds a `lidar_data`
value; `data : Option LidarData` embeds the logically present value: a
store `chan.data = v` becomes `some v`, and after the consumer copies
the value out it is dead, which is embedded as `none`. -/
structure Slot where
  has_data : Bool
  data : Option LidarData
deriving DecidableEq, Repr

/-- The cross-thread shared state of `struct state` that the channel
operations read and write: the `running` flag and the two slots. -/
structure Global where
  running : Bool
  loaded : Slot
  preprocessed : Slot
deriving DecidableEq, Repr

/-- Outcome of a channel operation: success carrying a value, or the
cancellation unwind (the early `return nullptr` a thread takes when it
wakes with `running == false`). -/
inductive ChanResult (α : Type) where
  | ok : α → ChanResult α
  | cancelled : ChanResult α
deriving DecidableEq, Repr

/-- The put of `load_data_thread` on the `loaded` channel (main.cpp):

    while (state->loaded.has_data) {
      pthread_cond_wait(state->loaded.data_is_null, ...);
      if (!state->running) { unlock; return nullptr; }
    }
    state->loaded.data = inflight;
    pthread_cond_signal(state->loaded.data_available);

`wakes` lists the shared state observed at each `pthread_cond_wait`
return; `none` means the call is still blocked after all listed wakes.
Note the source stores the frame but contains no write of
`loaded.has_data`. -/
def loadedPut (item : LidarData) (g : Global) (wakes : List Global) :
    Option (ChanResult Unit × Global) :=
  if g.loaded.has_data then
    match wakes with
    | [] => none
    | g' :: rest =>
      if g'.running = false then some (.cancelled, g')
      else loadedPut item g' rest
  else
    some (.ok (), { g with loaded := { g.loaded with data := some item } })

/-- The put of `preprocess_discard_thread` on the `preprocessed` channel
(main.cpp):

    while (state->preprocessed.has_data) {
      pthread_cond_wait(state->preprocessed.data_is_null, ...);
      if (!state->running) { unlock; return nullptr; }
    }
    state->preprocessed.data = outbound;
    state->preprocessed.has_data = true;
    pthread_cond_signal(state->preprocessed.data_available); -/
def preprocessedPut (item : LidarData) (g : Global) (wakes : List Global) :
    Option (ChanResult Unit × Global) :=
  if g.preprocessed.has_data then
    match wakes with
    | [] => none
    | g' :: rest =>
      if g'.running = false then some (.cancelled, g')
      else preprocessedPut item g' rest
  else
    some (.ok (), { g with preprocessed := ⟨true, some item⟩ })

/-- The take of `preprocess_discard_thread` from the `loaded` channel
(main.cpp):

    while (!state->loaded.has_data) {
      pthread_cond_wait(state->loaded.data_available, ...);
      if (!state->running) { unlock; return nullptr; }
    }
    lidar_data inflight = state->loaded.data;
    state->loaded.has_data = false;
    pthread_cond_signal(state->loaded.data_is_null);

The copied-out value is returned; the slot's logical content is dead
afterwards (`data := none`). -/
def loadedTake (g : Global) (wakes : List Global) :
    Option (ChanResult LidarData × Global) :=
  if g.loaded.has_data then
    some (.ok (g.loaded.data.getD ⟨[]⟩), { g with loaded := ⟨false, none⟩ })
  else
    match wakes with
    | [] => none
    | g' :: rest =>
      if g'.running = false then some (.cancelled, g')
      else loadedTake g' rest

/-- The take of `identify_driveable_thread` from the `preprocessed`
channel (main.cpp), structurally identical to `loadedTake` on the other
slot. -/
def preprocessedTake (g : Global) (wakes : List Global) :
    Option (ChanResult LidarData × Global) :=
  if g.preprocessed.has_data then
    some (.ok (g.preprocessed.data.getD ⟨[]⟩),
          { g with preprocessed := ⟨false, none⟩ })
  else
    match wakes with
    | [] => none
    | g' :: rest =>
      if g'.running = false then some (.cancelled, g')
      else preprocessedTake g' rest

/-- The channel invariant of the spec: `occupied == value.is_some()`. -/
def slotInv (s : Slot) : Prop := s.has_data = s.data.isSome

instance (s : Slot) : Decidable (slotInv s) := by
  unfold slotInv; infer_instance

/-- A concrete frame used as test payload. -/
def frame0 : LidarData := ⟨[⟨1, 2, 3⟩]⟩

/-- A second concrete frame. -/
def frame1 : LidarData := ⟨[⟨4, 5, 6⟩]⟩

/-- An empty slot as produced by value initialization in `main`. -/
def emptySlot : Slot := ⟨false, none⟩

/-- The shared state right after `main` starts the pipeline:
`running = 1`, both slots empty. -/
def g0 : Global := ⟨true, emptySlot, emptySlot⟩

/-- Shared state after shutdown was requested, both slots empty. -/
def gStopEmpty : Global := ⟨false, emptySlot, emptySlot⟩

/-- Shared state after shutdown was requested, with a frame still
sitting in the `preprocessed` slot. -/
def gStopFull : Global := ⟨false, emptySlot, ⟨true, some frame0⟩⟩

/-- Running state with both slots occupied. -/
def gFullFull : Global := ⟨true, ⟨true, some frame0⟩, ⟨true, some frame1⟩⟩

/-! ### Shutdown coordinator (`signal_handler`) -/

/-- Waiter counts on one channel's two condition variables
(`data_available` / `data_is_null` of `struct channel`). -/
structure ChanConds where
  data_available : ℕ
  data_is_null : ℕ
deriving DecidableEq

/-- The pipeline-wide synchronization state the signal handler touches:
the `running` flag and the waiter counts of the two channels' four
condition variables. -/
structure SysConds where
  running : Bool
  loaded : ChanConds
  preprocessed : ChanConds
deriving DecidableEq

/-- `pthread_cond_signal` on a condition with `w` blocked waiters wakes
one of them when any is blocked (POSIX guarantees at least one is
unblocked; exactly one is the deterministic embedding), in contrast to
`pthread_cond_broadcast`, which would wake all `w`. -/
def cond_signal (w : ℕ) : ℕ := w - 1

/-- `signal_handler` (main.cpp): on SIGINT it sets `running = 0` first,
then for each of the two channels acquires the channel mutex, calls
`pthread_cond_signal` on `data_available` and on `data_is_null`, and
releases the mutex.  The mutex acquisitions serialize the handler with
the channel operations and do not change waiter counts; the embedding
keeps the source's write order (flag first, then the four signals). -/
def signal_handler (s : SysConds) : SysConds :=
  let s1 : SysConds := { s with running := false }
  let s2 : SysConds :=
    { s1 with loaded := ⟨cond_signal s1.loaded.data_available,
                         cond_signal s1.loaded.data_is_null⟩ }
  { s2 with preprocessed := ⟨cond_signal s2.preprocessed.data_available,
                             cond_signal s2.preprocessed.data_is_null⟩ }

/-- A synchronization state with two consumers parked on
`loaded.data_available` and one waiter on every other condition. -/
def sTwoWaiters : SysConds := ⟨true, ⟨2, 1⟩, ⟨1, 1⟩⟩

/-! ### Periodic scheduler -/

/-- A `struct timespec` of the monotonic clock: nonnegative seconds and
nanoseconds (a valid value keeps `nsec < 10^9`). -/
structure Timespec where
  sec : ℕ
  nsec : ℕ
deriving DecidableEq

/-- Modelled from the spec: `timespec_add` is declared in `utils.h`,
whose implementation is not among the sources; the scheduler contract
`next_wake += period` fixes it as componentwise timespec addition with
nanosecond carry. -/
def timespec_add (a b : Timespec) : Timespec :=
  if a.nsec + b.nsec < 1000000000 then ⟨a.sec + b.sec, a.nsec + b.nsec⟩
  else ⟨a.sec + b.sec + 1, a.nsec + b.nsec - 1000000000⟩

/-- The fixed period of `load_data_thread`:
`struct timespec interval{0, 100000000}` — 100 ms. -/
def interval : Timespec := ⟨0, 100000000⟩

/-- `initial_time` as computed in `main`: read `CLOCK_MONOTONIC` into
`now`, then `tv_sec++; tv_nsec = 0` — the next whole-second boundary
after the start time.  `load_data_thread` sets its first `next_wake` to
exactly this value and sleeps until it before any work. -/
def initial_time (now : Timespec) : Timespec := ⟨now.sec + 1, 0⟩

/-- Total nanoseconds of a timespec. -/
def toNanos (t : Timespec) : ℕ := t.sec * 1000000000 + t.nsec

/-- One acquisition cycle's effect on `next_wake` (`load_data_thread`):
after the cycle's work — whose duration the code never reads, hence the
unused `work` parameter — it executes
`timespec_add(&next_wake, &interval, &next_wake)` unconditionally. -/
def cycleAdvance (nw : Timespec) (_work : ℕ) : Timespec := timespec_add nw interval

/-- The successive values `next_wake` takes over a run of cycles with
the given per-cycle work durations (in any unit; they are never read). -/
def nextWakes (start : Timespec) (works : List ℕ) : List Timespec :=
  match works with
  | [] => []
  | w :: ws =>
    let nw := cycleAdvance start w
    nw :: nextWakes nw ws

/-! ### Jitter monitor (jitter.h) -/

/-- `struct jitter_t` (jitter.h): `size_t num; double sum; double
sum_of_squares;`.  The doubles are embedded as exact rationals: the
samples are small timing deltas and no claim depends on rounding. -/
structure jitter_t where
  num : ℕ
  sum : ℚ
  sum_of_squares : ℚ
deriving DecidableEq

/-- Modelled from the spec: `jitter_init`'s implementation is not among
the sources; the sufficient statistics start at zero. -/
def jitter_init : jitter_t := ⟨0, 0, 0⟩

/-- Modelled from the spec: `jitter_add_datapoint`'s implementation is
not among the sources; per the spec, `record(sample)` increments
`count`, adds `sample` to `sum` and `sample^2` to `sum_of_squares`. -/
def jitter_record (s : jitter_t) (sample : ℚ) : jitter_t :=
  ⟨s.num + 1, s.sum + sample, s.sum_of_squares + sample * sample⟩

/-- Modelled from the spec: `mean() = sum / count`, reporting no data
when `count == 0`. -/
def jitter_mean (s : jitter_t) : Option ℚ :=
  if s.num = 0 then none else some (s.sum / (s.num : ℚ))

/-- Modelled from the spec:
`variance() = sum_of_squares / count − mean()^2`, reporting no data when
`count == 0`. -/
def jitter_variance (s : jitter_t) : Option ℚ :=
  if s.num = 0 then none
  else some (s.sum_of_squares / (s.num : ℚ) -
             (s.sum / (s.num : ℚ)) * (s.sum / (s.num : ℚ)))

/-- Record a whole list of samples starting from the initial state. -/
def jitter_feed (samples : List ℚ) : jitter_t :=
  samples.foldl jitter_record jitter_init

/-! ### Round-robin file source (`load_data_from_files`) -/

/-- The fixed file list of `load_data_from_files` (main.cpp). -/
def files : List String :=
  ["point_cloud1.txt", "point_cloud2.txt", "point_cloud3.txt"]

/-- The static `next_file` index as it stands before the n-th call
(calls counted from 0): initialized to 0, advanced after each call by
`next_file = (next_file + 1) % files.size()` with `files.size() = 3`. -/
def next_file : ℕ → ℕ
  | 0 => 0
  | n + 1 => (next_file n + 1) % 3

/-- The file loaded by the n-th invocation of `load_data_from_files`:
`load_data(files.begin()[next_file], data)`. -/
def fileLoadedAt (n : ℕ) : String := (files.getD (next_file n) "")

/-! ### Lock-scope traces of the three stage threads -/

/-- The two channel mutexes of `struct state`. -/
inductive ChanLock where
  | loadedMutex
  | preprocessedMutex
deriving DecidableEq

/-- The observable actions of one stage-thread loop iteration, in source
order.  `condWait` is a `pthread_cond_wait` (it releases and reacquires
the mutex it is called with internally and is neither a collaborator
call nor a scheduler sleep); `procCall` is a call to an injected
collaborator (`load_data_blocking`, `preprocess_discard`,
`identify_driveable`, `publish_data`); `sleepUntil` is the scheduler's
`sleep_until`; `slotAccess` covers the reads and writes of slot fields
and the `pthread_cond_signal` calls inside a critical section. -/
inductive Ev where
  | lock : ChanLock → Ev
  | unlock : ChanLock → Ev
  | condWait
  | procCall
  | sleepUntil
  | slotAccess
deriving DecidableEq

/-- Checks, over a trace, that every `procCall` and every `sleepUntil`
executes with no channel lock held; `held` is the list of locks the
thread currently holds. -/
def locksFreeAt : List ChanLock → List Ev → Bool
  | _, [] => true
  | held, .lock l :: evs => locksFreeAt (l :: held) evs
  | held, .unlock l :: evs => locksFreeAt (held.erase l) evs
  | held, .condWait :: evs => locksFreeAt held evs
  | held, .slotAccess :: evs => locksFreeAt held evs
  | held, .procCall :: evs => held.isEmpty && locksFreeAt held evs
  | held, .sleepUntil :: evs => held.isEmpty && locksFreeAt held evs

/-- One iteration of `load_data_thread` with `k` passes through its
inner wait loop: `sleep_until(&next_wake)`;
`state->load_data_blocking(&inflight)`; lock `loaded`; `k` cond waits;
store and signal; unlock `loaded`; `timespec_add` (no shared state). -/
def loadThreadTrace (k : ℕ) : List Ev :=
  [.sleepUntil, .procCall, .lock .loadedMutex] ++
    List.replicate k .condWait ++ [.slotAccess, .unlock .loadedMutex]

/-- One iteration of `preprocess_discard_thread` with `k1` waits on the
take side and `k2` on the put side: lock `loaded`; `k1` cond waits; copy
out, clear, signal; unlock `loaded`; `preprocess_discard(...)`; lock
`preprocessed`; `k2` cond waits; store, signal; unlock `preprocessed`. -/
def preprocessThreadTrace (k1 k2 : ℕ) : List Ev :=
  [.lock .loadedMutex] ++ List.replicate k1 .condWait ++
    [.slotAccess, .unlock .loadedMutex, .procCall, .lock .preprocessedMutex] ++
    List.replicate k2 .condWait ++ [.slotAccess, .unlock .preprocessedMutex]

/-- One iteration of `identify_driveable_thread` with `k` waits: lock
`preprocessed`; `k` cond waits; copy out, clear, signal; unlock
`preprocessed`; `identify_driveable(...)`; `state->publish_data(...)`. -/
def identifyThreadTrace (k : ℕ) : List Ev :=
  [.lock .preprocessedMutex] ++ List.replicate k .condWait ++
    [.slotAccess, .unlock .preprocessedMutex, .procCall, .procCall]

/-! ### Stage cycles on the shared state -/

/-- One `load_data_thread` iteration's effect on the shared state:
`sleep_until` and `timespec_add` touch no shared state;
`load_data_blocking` is the injected collaborator, whose produced frame
is the parameter `inflight`; the body contains no error check and no
write to `running` — its only shared-state effect is the put. -/
def loadCycle (inflight : LidarData) (g : Global) (wakes : List Global) :
    Option (ChanResult Unit × Global) :=
  loadedPut inflight g wakes

/-- One `preprocess_discard_thread` iteration's effect on the shared
state: take from `loaded`, run the injected `preprocess_discard`
(parameter `process`, no shared state), put into `preprocessed`; no
error check and no write to `running` anywhere in the body. -/
def preprocessCycle (process : LidarData → LidarData) (g : Global)
    (wakesTake wakesPut : List Global) : Option (ChanResult Unit × Global) :=
  match loadedTake g wakesTake with
  | none => none
  | some (.cancelled, g') => some (.cancelled, g')
  | some (.ok frame, g') => preprocessedPut (process frame) g' wakesPut

/-- One `identify_driveable_thread` iteration's effect on the shared
state: take from `preprocessed`; `identify_driveable` and
`publish_data` are injected collaborators touching no shared state; no
error check and no write to `running` anywhere in the body. -/
def identifyCycle (g : Global) (wakes : List Global) :
    Option (ChanResult Unit × Global) :=
  match preprocessedTake g wakes with
  | none => none
  | some (.cancelled, g') => some (.cancelled, g')
  | some (.ok _, g') => some (.ok (), g')

/-- Running state with a frame in the `loaded` slot only. -/
def gLoadedFull : Global := ⟨true, ⟨true, some frame0⟩, emptySlot⟩

/-! ## Theorems -/

/-- Claim C1: the producer's put on the `loaded` channel must set
`occupied = true` and store its item, so that the consumer's take
returns it.  Evaluating the source at the failing input: on an empty
slot `load_data_thread` stores the frame but leaves
`loaded.has_data = false` (the source contains no write of that flag on
this path, unlike the analogous put of `preprocess_discard_thread`), so
`occupied` never becomes true and the consumer's take remains blocked
instead of returning the frame. -/
theorem loaded_put_never_sets_occupied :
    loadedPut frame0 g0 [] =
      some (.ok (), ⟨true, ⟨false, some frame0⟩, emptySlot⟩) ∧
    loadedTake ⟨true, ⟨false, some frame0⟩, emptySlot⟩ [] = none :=
  ⟨rfl, rfl⟩

/-- Claim C2: the channel invariant `occupied == value.is_some()` must
be preserved by every channel operation.  Evaluating the source at the
failing input: it holds in the initial state, but after the put of
`load_data_thread` the `loaded` slot holds a value while
`has_data = false`, because that put never sets the flag. -/
theorem loaded_put_breaks_slot_invariant :
    slotInv g0.loaded ∧
    loadedPut frame0 g0 [] =
      some (.ok (), ⟨true, ⟨false, some frame0⟩, emptySlot⟩) ∧
    ¬ slotInv (⟨false, some frame0⟩ : Slot) :=
  ⟨by decide, rfl, by decide⟩

/-- Claim C3, counterexample: with `running = false` before the
operation starts, a put on an empty slot still succeeds and stores its
item, and a take from an occupied slot still succeeds and returns the
value — the source checks `running` only after a `pthread_cond_wait`
wake, never before blocking, so the non-blocking path ignores the
flag. -/
theorem fast_path_ignores_running :
    gStopEmpty.running = false ∧
    preprocessedPut frame1 gStopEmpty [] =
      some (.ok (), ⟨false, emptySlot, ⟨true, some frame1⟩⟩) ∧
    gStopFull.running = false ∧
    preprocessedTake gStopFull [] =
      some (.ok frame0, ⟨false, emptySlot, ⟨false, none⟩⟩) :=
  ⟨rfl, rfl, rfl, rfl⟩

/-- Claim C3, amended: a put or take that blocks and is then woken with
`running = false` returns Cancelled at that wake, leaving the shared
state exactly as observed (the operation writes nothing on the
Cancelled path); `running` is not consulted before blocking. -/
theorem ops_cancel_on_wake_running_false (item : LidarData)
    (g g' : Global) (rest : List Global) (hr : g'.running = false) :
    (g.loaded.has_data = true →
      loadedPut item g (g' :: rest) = some (.cancelled, g')) ∧
    (g.preprocessed.has_data = true →
      preprocessedPut item g (g' :: rest) = some (.cancelled, g')) ∧
    (g.loaded.has_data = false →
      loadedTake g (g' :: rest) = some (.cancelled, g')) ∧
    (g.preprocessed.has_data = false →
      preprocessedTake g (g' :: rest) = some (.cancelled, g')) := by
  refine ⟨fun h => ?_, fun h => ?_, fun h => ?_, fun h => ?_⟩ <;>
    simp [loadedPut, preprocessedPut, loadedTake, preprocessedTake, h, hr]

/-- Witness for the amended Claim C3 at concrete states. -/
theorem ops_cancel_on_wake_running_false_witness :
    loadedPut frame0 gFullFull [gStopEmpty] = some (.cancelled, gStopEmpty) ∧
    preprocessedPut frame0 gFullFull [gStopEmpty] =
      some (.cancelled, gStopEmpty) ∧
    loadedTake g0 [gStopEmpty] = some (.cancelled, gStopEmpty) ∧
    preprocessedTake g0 [gStopEmpty] = some (.cancelled, gStopEmpty) := by
  have h1 := ops_cancel_on_wake_running_false frame0 gFullFull gStopEmpty [] rfl
  have h2 := ops_cancel_on_wake_running_false frame0 g0 gStopEmpty [] rfl
  exact ⟨h1.1 rfl, h1.2.1 rfl, h2.2.2.1 rfl, h2.2.2.2 rfl⟩

/-- Claim C4, counterexample: the handler calls `pthread_cond_signal`,
not `pthread_cond_broadcast`.  In a state with at least one waiter on
every condition of both channels (two of them parked on
`loaded.data_available`), one waiter is still blocked after the handler
completes — contradicting that every blocked call returns within one
notification round. -/
theorem handler_signal_leaves_waiter_blocked :
    1 ≤ sTwoWaiters.loaded.data_available ∧
    1 ≤ sTwoWaiters.loaded.data_is_null ∧
    1 ≤ sTwoWaiters.preprocessed.data_available ∧
    1 ≤ sTwoWaiters.preprocessed.data_is_null ∧
    (signal_handler sTwoWaiters).loaded.data_available = 1 := by
  decide

/-- Claim C4, amended: the handler sets `running` to false and then
signals (wakes one waiter of) each of the four conditions; provided
each condition has at most one waiter — as in this single-producer
single-consumer pipeline — no waiter remains blocked after the handler
completes. -/
theorem handler_unblocks_all_spsc_waiters (s : SysConds)
    (h1 : s.loaded.data_available ≤ 1) (h2 : s.loaded.data_is_null ≤ 1)
    (h3 : s.preprocessed.data_available ≤ 1)
    (h4 : s.preprocessed.data_is_null ≤ 1) :
    (signal_handler s).running = false ∧
    (signal_handler s).loaded.data_available = 0 ∧
    (signal_handler s).loaded.data_is_null = 0 ∧
    (signal_handler s).preprocessed.data_available = 0 ∧
    (signal_handler s).preprocessed.data_is_null = 0 := by
  refine ⟨rfl, ?_, ?_, ?_, ?_⟩ <;>
    simp [signal_handler, cond_signal] <;> omega

/-- Witness for the amended Claim C4 with one waiter on three
conditions and none on the fourth. -/
theorem handler_unblocks_all_spsc_waiters_witness :
    (signal_handler ⟨true, ⟨1, 1⟩, ⟨1, 0⟩⟩).running = false ∧
    (signal_handler ⟨true, ⟨1, 1⟩, ⟨1, 0⟩⟩).loaded.data_available = 0 ∧
    (signal_handler ⟨true, ⟨1, 1⟩, ⟨1, 0⟩⟩).loaded.data_is_null = 0 ∧
    (signal_handler ⟨true, ⟨1, 1⟩, ⟨1, 0⟩⟩).preprocessed.data_available = 0 ∧
    (signal_handler ⟨true, ⟨1, 1⟩, ⟨1, 0⟩⟩).preprocessed.data_is_null = 0 :=
  handler_unblocks_all_spsc_waiters ⟨true, ⟨1, 1⟩, ⟨1, 0⟩⟩
    (by decide) (by decide) (by decide) (by decide)

/-- Claim C5, counterexample: starting at 10 s, 0 ns, `main` computes
`initial_time = 11 s, 0 ns` (it increments `tv_sec` and zeroes
`tv_nsec`), while start plus one period would be 10 s, 100000000 ns —
the first wake is not start plus one period. -/
theorem first_wake_not_one_period_after_start :
    initial_time ⟨10, 0⟩ = ⟨11, 0⟩ ∧
    timespec_add ⟨10, 0⟩ interval = ⟨10, 100000000⟩ ∧
    initial_time ⟨10, 0⟩ ≠ timespec_add ⟨10, 0⟩ interval := by
  decide

/-- Claim C5, amended: the first wake of the acquisition stage is the
start time advanced to the next whole-second boundary — strictly after
the start (never firing immediately) and at most one second after it —
rather than start plus one 100 ms period. -/
theorem first_wake_next_second_boundary (now : Timespec)
    (h : now.nsec < 1000000000) :
    toNanos now < toNanos (initial_time now) ∧
    (initial_time now).nsec = 0 ∧
    toNanos (initial_time now) ≤ toNanos now + 1000000000 := by
  refine ⟨?_, rfl, ?_⟩ <;> simp [initial_time, toNanos] <;> omega

/-- Witness for the amended Claim C5 at 10 s, 5 ns. -/
theorem first_wake_next_second_boundary_witness :
    toNanos ⟨10, 5⟩ < toNanos (initial_time ⟨10, 5⟩) ∧
    (initial_time ⟨10, 5⟩).nsec = 0 ∧
    toNanos (initial_time ⟨10, 5⟩) ≤ toNanos ⟨10, 5⟩ + 1000000000 :=
  first_wake_next_second_boundary ⟨10, 5⟩ (by decide)

/-- One cycle advances `next_wake` by exactly 100 ms and keeps the
timespec valid. -/
theorem toNanos_cycleAdvance (nw : Timespec) (w : ℕ)
    (h : nw.nsec < 1000000000) :
    toNanos (cycleAdvance nw w) = toNanos nw + 100000000 ∧
    (cycleAdvance nw w).nsec < 1000000000 := by
  simp only [cycleAdvance, timespec_add, interval]
  constructor <;> split <;> simp [toNanos] <;> omega

/-- Claim C6: after each cycle `next_wake` advances by exactly one
period, for every start time and for arbitrary per-cycle work durations
(the update never reads them): the successive values are start + 100 ms,
start + 200 ms, start + 300 ms — no drift accumulation from an
overrun. -/
theorem next_wake_paced_one_period_per_cycle (start : Timespec)
    (w1 w2 w3 : ℕ) (h : start.nsec < 1000000000) :
    (nextWakes start [w1, w2, w3]).map toNanos =
      [toNanos start + 100000000, toNanos start + 200000000,
       toNanos start + 300000000] := by
  obtain ⟨e1, v1⟩ := toNanos_cycleAdvance start w1 h
  obtain ⟨e2, v2⟩ := toNanos_cycleAdvance (cycleAdvance start w1) w2 v1
  obtain ⟨e3, v3⟩ :=
    toNanos_cycleAdvance (cycleAdvance (cycleAdvance start w1) w2) w3 v2
  have a2 : toNanos (cycleAdvance (cycleAdvance start w1) w2) =
      toNanos start + 200000000 := by omega
  have a3 : toNanos (cycleAdvance (cycleAdvance (cycleAdvance start w1) w2) w3) =
      toNanos start + 300000000 := by omega
  simp only [nextWakes, List.map_cons, List.map_nil]
  rw [e1, a2, a3]

/-- Witness for Claim C6 with the spec's work durations 10, 150, 5
(one overrun) from a zero start. -/
theorem next_wake_paced_one_period_per_cycle_witness :
    (nextWakes ⟨0, 0⟩ [10, 150, 5]).map toNanos =
      [100000000, 200000000, 300000000] := by
  have h := next_wake_paced_one_period_per_cycle ⟨0, 0⟩ 10 150 5 (by decide)
  simpa [toNanos] using h

/-- Claim C7: evaluating the stage bodies: no stage-thread iteration
ever writes `running`, whatever frame the injected collaborator
produces — the collaborator interfaces return `void`, the loops contain
no error check, and the only writer of `running` in the program is
`signal_handler`; hence no processing failure can trigger the shutdown
transition. -/
theorem stage_cycles_never_write_running
    (inflight : LidarData) (process : LidarData → LidarData) (g : Global) :
    (∀ r g', loadCycle inflight g [] = some (r, g') →
      g'.running = g.running) ∧
    (∀ r g', preprocessCycle process g [] [] = some (r, g') →
      g'.running = g.running) ∧
    (∀ r g', identifyCycle g [] = some (r, g') →
      g'.running = g.running) := by
  refine ⟨?_, ?_, ?_⟩
  · intro r g' h
    by_cases hl : g.loaded.has_data <;>
      simp [loadCycle, loadedPut, hl] at h
    obtain ⟨-, rfl⟩ := h
    rfl
  · intro r g' h
    by_cases hl : g.loaded.has_data <;>
      by_cases hp : g.preprocessed.has_data <;>
      simp [preprocessCycle, loadedTake, preprocessedPut, hl, hp] at h
    obtain ⟨-, rfl⟩ := h
    rfl
  · intro r g' h
    by_cases hp : g.preprocessed.has_data <;>
      simp [identifyCycle, preprocessedTake, hp] at h
    obtain ⟨-, rfl⟩ := h
    rfl

/-- Witness for Claim C7: each stage cycle completed at a concrete
state and left `running` as it was. -/
theorem stage_cycles_never_write_running_witness :
    (⟨true, ⟨false, some frame0⟩, emptySlot⟩ : Global).running =
      g0.running ∧
    (⟨true, ⟨false, none⟩, ⟨true, some frame0⟩⟩ : Global).running =
      gLoadedFull.running ∧
    (⟨true, ⟨true, some frame0⟩, ⟨false, none⟩⟩ : Global).running =
      gFullFull.running := by
  refine ⟨?_, ?_, ?_⟩
  · exact (stage_cycles_never_write_running frame0 id g0).1 (.ok ()) _ rfl
  · exact (stage_cycles_never_write_running frame0 id gLoadedFull).2.1
      (.ok ()) _ rfl
  · exact (stage_cycles_never_write_running frame0 id gFullFull).2.2
      (.ok ()) _ rfl

/-- Claim C8: feeding the samples 0, 2, 4 yields mean 2 and population
variance 8/3 via the sufficient statistics, and with zero samples both
accessors report no data. -/
theorem jitter_statistics_values :
    jitter_mean (jitter_feed [0, 2, 4]) = some 2 ∧
    jitter_variance (jitter_feed [0, 2, 4]) = some (8 / 3) ∧
    jitter_mean jitter_init = none ∧
    jitter_variance jitter_init = none := by
  norm_num [jitter_feed, jitter_record, jitter_init, jitter_mean,
    jitter_variance]

/-- A run of `pthread_cond_wait` events neither checks nor changes the
held-lock set. -/
theorem locksFreeAt_append_condWaits (held : List ChanLock) (k : ℕ)
    (evs : List Ev) :
    locksFreeAt held (List.replicate k Ev.condWait ++ evs) =
      locksFreeAt held evs := by
  induction k with
  | zero => rfl
  | succ n ih => simpa [List.replicate_succ, locksFreeAt] using ih

/-- Claim C9: in every iteration of the three stage threads, whatever
number of passes each inner wait loop makes, every injected-collaborator
call and every `sleep_until` executes with no channel lock held: each
lock is held only for the critical section of a single put or take. -/
theorem stages_hold_no_lock_across_proc_or_sleep (k k1 k2 : ℕ) :
    locksFreeAt [] (loadThreadTrace k) = true ∧
    locksFreeAt [] (preprocessThreadTrace k1 k2) = true ∧
    locksFreeAt [] (identifyThreadTrace k) = true := by
  refine ⟨?_, ?_, ?_⟩ <;>
    simp [loadThreadTrace, preprocessThreadTrace, identifyThreadTrace,
      locksFreeAt, locksFreeAt_append_condWaits]

/-- The static round-robin index equals the call number modulo 3. -/
theorem next_file_eq_mod (n : ℕ) : next_file n = n % 3 := by
  induction n with
  | zero => rfl
  | succ n ih =>
    show (next_file n + 1) % 3 = (n + 1) % 3
    rw [ih]
    omega

/-- Claim C10: the n-th invocation of `load_data_from_files` loads file
index n mod 3 of the fixed three-file list, so the sequence of acquired
frames is periodic with period 3. -/
theorem load_data_round_robin (n : ℕ) :
    fileLoadedAt n = files.getD (n % 3) "" ∧
    fileLoadedAt (n + 3) = fileLoadedAt n := by
  constructor
  · unfold fileLoadedAt
    rw [next_file_eq_mod]
  · unfold fileLoadedAt
    rw [next_file_eq_mod, next_file_eq_mod]
    congr 1
    omega

end RTS
